import Mathlib

/-!
Verification of the `boutros/riko` pipeline-stage modules
(`pipe2py/modules/pipeexchangerate.py`, `pipe2py/modules/pipecurrencyformat.py`,
`riko/modules/fetchsitefeed.py`) against their natural-language specification.

The Python modules are shallowly embedded: Python floats become rationals
(`ℚ`), Python dicts become association lists with dict-style lookup and
insertion, fallible Python code (KeyError, TypeError, ZeroDivisionError, ...)
becomes `Except PyErr`, and external collaborators (the HTTP client, the feed
discovery service, the stage dispatcher living in the package `__init__`) are
parameters gathered into environment structures.
-/

/-- The Python exceptions the embedded code can raise. -/
inductive PyErr where
  | keyError (k : String)
  | zeroDivisionError
  | typeError
  | valueError
  | stopIteration
  | connectionError
  deriving Repr, DecidableEq

instance {ε α : Type} [DecidableEq ε] [DecidableEq α] : DecidableEq (Except ε α) := fun
  | .ok a, .ok b => if h : a = b then .isTrue (by rw [h]) else .isFalse (by simp [h])
  | .ok _, .error _ => .isFalse (by simp)
  | .error _, .ok _ => .isFalse (by simp)
  | .error e, .error f => if h : e = f then .isTrue (by rw [h]) else .isFalse (by simp [h])

/-- A rate table: a Python dict from `"BASE/QUOTE"` pair codes to prices
(`{i["name"]: i["price"] for i in fields}` in `parse_request`). -/
abbrev RateTable : Type := List (String × ℚ)

/-- Python dict lookup (first binding wins; `dictInsert` keeps keys unique). -/
def dictLookup : RateTable → String → Option ℚ
  | [], _ => none
  | (k, v) :: rest, key => if k = key then some v else dictLookup rest key

/-- Python dict assignment `d[k] = v`: replace the binding if the key exists,
otherwise append it (insertion order). -/
def dictInsert : RateTable → String → ℚ → RateTable
  | [], k, v => [(k, v)]
  | (k0, v0) :: rest, k, v =>
    if k0 = k then (k0, v) :: rest else (k0, v0) :: dictInsert rest k v

/-- Python dict subscription `rates[k]`: raises `KeyError` when absent. -/
def getItem (rates : RateTable) (k : String) : Except PyErr ℚ :=
  match dictLookup rates k with
  | some v => .ok v
  | none => .error (.keyError k)

/-- Python division: raises `ZeroDivisionError` on a zero divisor. -/
def pydiv (a b : ℚ) : Except PyErr ℚ :=
  if b = 0 then .error .zeroDivisionError else .ok (a / b)

/-- `pipeexchangerate.calc_rate(from_cur, to_cur, rates)`.

```
if from_cur == to_cur:
    rate = 1
elif to_cur == "USD":
    try:
        rate = rates["USD/%s" % from_cur]
    except KeyError:
        logger.warning(...)
        rate = 1
else:
    usd_to_given = rates["USD/%s" % from_cur]
    usd_to_default = rates["USD/%s" % to_cur]
    rate = usd_to_given * (1 / usd_to_default)
return 1 / float(rate)
```
(logging elided; the uncaught `KeyError`s of the last branch and every
`ZeroDivisionError` propagate). -/
def calc_rate (from_cur to_cur : String) (rates : RateTable) : Except PyErr ℚ :=
  let rateE : Except PyErr ℚ :=
    if from_cur = to_cur then .ok 1
    else if to_cur = "USD" then
      match dictLookup rates ("USD/" ++ from_cur) with
      | some r => .ok r
      | none => .ok 1
    else
      match getItem rates ("USD/" ++ from_cur) with
      | .error e => .error e
      | .ok usd_to_given =>
        match getItem rates ("USD/" ++ to_cur) with
        | .error e => .error e
        | .ok usd_to_default =>
          match pydiv 1 usd_to_default with
          | .error e => .error e
          | .ok inv => .ok (usd_to_given * inv)
  match rateE with
  | .error e => .error e
  | .ok rate => pydiv 1 rate

/-- A Python/JSON value, as produced by `json.loads`, `requests.Response.json`
or `treq.json_content`. -/
inductive JSON where
  | str (s : String)
  | num (q : ℚ)
  | arr (l : List JSON)
  | obj (l : List (String × JSON))
  deriving Repr

/-- Lookup in a binding list of a JSON object. -/
def jsonLookup : List (String × JSON) → String → Option JSON
  | [], _ => none
  | (k, v) :: rest, key => if k = key then some v else jsonLookup rest key

/-- Python subscription `j[k]` on a JSON value: `KeyError` when a dict lacks
the key, `TypeError` when the value is not a dict. -/
def getItemJ (j : JSON) (k : String) : Except PyErr JSON :=
  match j with
  | .obj l =>
    match jsonLookup l k with
    | some v => .ok v
    | none => .error (.keyError k)
  | _ => .error .typeError

/-- Python iteration `for r in x`: `TypeError` unless `x` is a list. -/
def asArr : JSON → Except PyErr (List JSON)
  | .arr l => .ok l
  | _ => .error .typeError

/-- Using a JSON value as a string table key. -/
def asStr : JSON → Except PyErr String
  | .str s => .ok s
  | _ => .error .typeError

/-- Using a JSON value as a numeric price. -/
def asNum : JSON → Except PyErr ℚ
  | .num q => .ok q
  | _ => .error .typeError

/-- One step of the comprehensions in `parse_request`: for a single resource
record `r` it evaluates `r["resource"]["fields"]` (the generator expression)
and then `i["name"]`, `i["price"]` (the dict comprehension); any missing key
or wrong shape raises. -/
def parse_record (r : JSON) : Except PyErr (String × ℚ) :=
  match getItemJ r "resource" with
  | .error e => .error e
  | .ok res =>
    match getItemJ res "fields" with
    | .error e => .error e
    | .ok fs =>
      match getItemJ fs "name" with
      | .error e => .error e
      | .ok nameJ =>
        match asStr nameJ with
        | .error e => .error e
        | .ok name =>
          match getItemJ fs "price" with
          | .error e => .error e
          | .ok priceJ =>
            match asNum priceJ with
            | .error e => .error e
            | .ok price => .ok (name, price)

/-- The dict comprehension `{i["name"]: i["price"] for i in fields}` driving
the lazy generator over `resources`: records are processed left to right and
the first exception aborts the whole comprehension. -/
def buildTable : List JSON → RateTable → Except PyErr RateTable
  | [], acc => .ok acc
  | r :: rest, acc =>
    match parse_record r with
    | .error e => .error e
    | .ok nv => buildTable rest (dictInsert acc nv.1 nv.2)

/-- `pipeexchangerate.parse_request(json)`:

```
resources = json["list"]["resources"]
fields = (r["resource"]["fields"] for r in resources)
return {i["name"]: i["price"] for i in fields}
``` -/
def parse_request (json : JSON) : Except PyErr RateTable :=
  match getItemJ json "list" with
  | .error e => .error e
  | .ok l =>
    match getItemJ l "resources" with
    | .error e => .error e
    | .ok rj =>
      match asArr rj with
      | .error e => .error e
      | .ok resources => buildTable resources []

/-- A well-formed resource record, shaped like the `FIELDS` sample and the
shape `list.resources[].resource.fields` of the remote payload. -/
def mkField (name : String) (price : ℚ) : JSON :=
  .obj [("resource", .obj [("fields", .obj [("name", .str name), ("price", .num price)])])]

/-- A payload wrapping resource records under `list.resources`. -/
def mkPayload (rs : List JSON) : JSON :=
  .obj [("list", .obj [("resources", .arr rs)])]

/-- A Python scalar value flowing through a stage (an item-derived word, a
configured default, a computed rate). -/
inductive PyVal where
  | none
  | str (s : String)
  | num (q : ℚ)
  | bool (b : Bool)
  deriving Repr, DecidableEq

/-- Python truthiness: `None`, `""`, `0` and `False` are falsy. -/
def falsy : PyVal → Bool
  | .none => true
  | .str s => s = ""
  | .num q => q = 0
  | .bool b => !b

/-- Python `a or b`: returns `b` exactly when `a` is falsy. -/
def pyOr (a b : PyVal) : PyVal :=
  if falsy a then b else a

/-- Python string interpolation `"USD/%s" % from_cur` applied to the base
value when `parse_result` hands it to `calc_rate`. -/
def pyFormat : PyVal → String
  | .none => "None"
  | .str s => s
  | .num q => toString q
  | .bool b => if b then "True" else "False"

/-- The stage configuration object (`DotDict`): `conf.quote` and
`conf.default` are the configured `value`s; `offline` is `some v` when the
`offline` attribute exists and `none` when accessing it raises
`AttributeError`. -/
structure Conf where
  quote : String
  default : PyVal
  offline : Option PyVal

/-- `pipeexchangerate.get_base(conf, word)`:

```
base = word or conf.default
try:
    offline = conf.offline
except AttributeError:
    offline = False
return (base, offline)
``` -/
def get_base (conf : Conf) (word : PyVal) : PyVal × PyVal :=
  (pyOr word conf.default, conf.offline.getD (.bool false))

/-- `pipeexchangerate.parse_result(conf, word, _pass, rates)`:

```
base = word or conf.default
return base if _pass else calc_rate(base, conf.quote, rates)
``` -/
def parse_result (conf : Conf) (word : PyVal) (_pass : Bool) (rates : RateTable) :
    Except PyErr PyVal :=
  let base := pyOr word conf.default
  if _pass then .ok base
  else
    match calc_rate (pyFormat base) conf.quote rates with
    | .error e => .error e
    | .ok r => .ok (.num r)

/-- The external HTTP/file collaborators of the rate fetchers (spec §1 puts
raw network transport out of scope, so the outcomes are environment data):
`httpGet` is the outcome of `requests.get(EXCHANGE_API, params=PARAMS)` /
`treq.get(EXCHANGE_API, params=PARAMS)` (an `error` models a raise or a
timeout); `parseBody` is `r.json()` / `treq.json_content` on a successful
response; `snapshot` is the outcome of reading and `loads`-parsing the
bundled `LOCAL_RATES_URL` file. -/
structure FetchEnv where
  httpGet : Except PyErr String
  parseBody : String → Except PyErr JSON
  snapshot : Except PyErr JSON

/-- `pipeexchangerate.get_offline_rate_data(...)` /
`asyncGetOfflineRateData(...)`: read and parse the bundled snapshot file
(`loads(urlopen(LOCAL_RATES_URL).read())`; logging elided). -/
def get_offline_rate_data (env : FetchEnv) : Except PyErr JSON :=
  env.snapshot

/-- `pipeexchangerate.get_rate_data()` (blocking strategy):

```
r = requests.get(EXCHANGE_API, params=PARAMS)
return r.json()
```

Any exception of the GET propagates and a parse failure of `r.json()`
propagates; there is no fallback in this function. -/
def get_rate_data (env : FetchEnv) : Except PyErr JSON :=
  match env.httpGet with
  | .error e => .error e
  | .ok body => env.parseBody body

/-- `pipeexchangerate.asyncGetRateData()` (suspendable strategy):

```
resp = treq.get(EXCHANGE_API, params=PARAMS)
resp.addCallbacks(treq.json_content, asyncGetOfflineRateData)
return resp
```

The errback fires only when the GET itself fails; a failure raised inside the
callback `treq.json_content` propagates past this one `addCallbacks` pair. -/
def asyncGetRateData (env : FetchEnv) : Except PyErr JSON :=
  match env.httpGet with
  | .error _ => get_offline_rate_data env
  | .ok body => env.parseBody body

/-- A value as seen inside the `inlineCallbacks` body: either a plain
(resolved) Python value or an unresolved `twisted` `Deferred` object that was
never `yield`ed. -/
inductive DeferredVal where
  | value (j : JSON)
  | deferred (d : Except PyErr JSON)

/-- `parse_request` applied to what the suspendable pipe holds in `rdata`:
on a plain value it is the ordinary parse; subscripting an unresolved
`Deferred` object (`rdata["list"]`) raises `TypeError`. -/
def parse_requestD : DeferredVal → Except PyErr RateTable
  | .value j => parse_request j
  | .deferred _ => .error .typeError

/-- `conf.get("offline", {}).get("value")` used as the `if offline:` guard in
both pipes: truthiness of the configured offline value, `None`/falsy when
the key is missing. -/
def confOffline (conf : Conf) : Bool :=
  !(falsy (conf.offline.getD .none))

/-- Modelled from the spec: the `StageDispatcher` (§4.4) — the
`get_split`/`asyncGetSplit` + `dispatch`/`asyncDispatch` machinery lives in
the modules package `__init__` and `pipe2py.lib`/`pipe2py.twisted`, which are
not under `src/`; per §4.4 it yields, in input order, the `(value,
passThrough)` pairs fed to the stage transform, identically for both
strategies. `parsed` is that sequence for the one `(item, conf, kwargs)`
invocation under study; `fetch` gathers the HTTP collaborators. -/
structure StageEnv where
  fetch : FetchEnv
  parsed : List (PyVal × Bool)

/-- `starmap(partial(parse_result, rates=rates), parsed)`, fully consumed:
the first exception raised while the generator is drained propagates. -/
def starmapResults (conf : Conf) (rates : RateTable) :
    List (PyVal × Bool) → Except PyErr (List PyVal)
  | [] => .ok []
  | wp :: rest =>
    match parse_result conf wp.1 wp.2 rates with
    | .error e => .error e
    | .ok v =>
      match starmapResults conf rates rest with
      | .error e => .error e
      | .ok vs => .ok (v :: vs)

/-- `pipeexchangerate.pipe_exchangerate(context, item, conf, **kwargs)`
(blocking strategy), with the fully consumed output stream:

```
offline = conf.get("offline", {}).get("value")
rdata = get_offline_rate_data(err=False) if offline else get_rate_data()
rates = parse_request(rdata)
split = get_split(item, conf, **cdicts(opts, kwargs))
parsed = utils.dispatch(split, *get_dispatch_funcs())
_OUTPUT = starmap(partial(parse_result, rates=rates), parsed)
return _OUTPUT
``` -/
def pipe_exchangerate (env : StageEnv) (conf : Conf) : Except PyErr (List PyVal) :=
  let rdata :=
    if confOffline conf then get_offline_rate_data env.fetch else get_rate_data env.fetch
  match rdata with
  | .error e => .error e
  | .ok j =>
    match parse_request j with
    | .error e => .error e
    | .ok rates => starmapResults conf rates env.parsed

/-- `pipeexchangerate.asyncPipeExchangerate(context, item, conf, **kwargs)`
(suspendable strategy), with the fully consumed output stream:

```
offline = conf.get("offline", {}).get("value")
if offline:
    rdata = yield asyncGetOfflineRateData(err=False)
else:
    rdata = asyncGetRateData()
rates = parse_request(rdata)
split = yield asyncGetSplit(item, conf, **cdicts(opts, kwargs))
parsed = yield asyncDispatch(split, *get_async_dispatch_funcs())
_OUTPUT = starmap(partial(parse_result, rates=rates), parsed)
returnValue(iter(_OUTPUT))
```

In the offline branch the Deferred is `yield`ed, so `rdata` is the resolved
snapshot (or the coroutine fails with the failure of the Deferred); in the online
branch `asyncGetRateData()` is NOT `yield`ed, so `rdata` is the unresolved
`Deferred` object itself. -/
def asyncPipeExchangerate (env : StageEnv) (conf : Conf) : Except PyErr (List PyVal) :=
  let rdataE : Except PyErr DeferredVal :=
    if confOffline conf then
      match get_offline_rate_data env.fetch with
      | .error e => .error e
      | .ok j => .ok (.value j)
    else .ok (.deferred (asyncGetRateData env.fetch))
  match rdataE with
  | .error e => .error e
  | .ok rdata =>
    match parse_requestD rdata with
    | .error e => .error e
    | .ok rates => starmapResults conf rates env.parsed

/-- `utils.HALF_DAY`, the TTL both rate fetchers are memoized with
(12 hours, in seconds). Modelled from the spec: `pipe2py.lib.utils` is not
under `src/`; §4.1 fixes the TTL at "12 hours (half day)". -/
def HALF_DAY : ℕ := 60 * 60 * 12

/-- One memo cell of the `@utils.memoize(ttl)` decorator for one key:
`entry = some (value, fetchedAt)` after a successful fetch, `none` before the
first one. -/
structure Cache (α : Type) where
  entry : Option (α × ℕ)

/-- Modelled from the spec: `pipe2py.lib.utils.memoize` — the
`ExternalDataCache` of §4.1 — is not under `src/`. One call of the memoized
fetcher at time `now`: a live entry (`now - fetchedAt < ttl`) is returned
with no I/O; otherwise the underlying `fetchFn` runs — on success the entry
is replaced by `(value, now)`, on failure a stale entry is served
(serve-stale-on-error) and only with no entry at all does the failure
propagate. The returned boolean records whether the underlying fetch was
invoked. -/
def cacheGet {α : Type} (ttl now : ℕ) (fetchFn : Except PyErr α) (c : Cache α) :
    Except PyErr α × Cache α × Bool :=
  match c.entry with
  | some vt =>
    if now - vt.2 < ttl then (.ok vt.1, c, false)
    else
      match fetchFn with
      | .ok v => (.ok v, ⟨some (v, now)⟩, true)
      | .error _ => (.ok vt.1, c, true)
  | none =>
    match fetchFn with
    | .ok v => (.ok v, ⟨some (v, now)⟩, true)
    | .error e => (.error e, c, true)

/-- The configuration of the site-feed stage (`Objectify` instance): the
web site URL. -/
structure SiteConf where
  url : String

/-- The external collaborators of `riko.modules.fetchsitefeed` (spec §1 puts
feed parsing, auto-discovery and transport out of scope): `get_abspath` is
`utils.get_abspath`; `get_rss` is `autorss.get_rss`/`autorss.asyncGetRSS`,
returning the links of the discovered feeds in order; `async_url_read` is
`io.async_url_read`; `parse_rss` is `utils.parse_rss` (feedparser accepts a
URL or raw content); `gen_entries` is `utils.gen_entries`. `S` is the type
of item streams, `P` of parsed feeds. -/
structure FeedEnv (S P : Type) where
  get_abspath : String → String
  get_rss : String → List String
  async_url_read : String → String
  parse_rss : String → P
  gen_entries : P → S

/-- `fetchsitefeed.parser(_, objconf, skip, **kwargs)` (blocking):

```
if skip:
    stream = kwargs["stream"]
else:
    url = utils.get_abspath(objconf.url)
    rss = autorss.get_rss(url)
    link = utils.get_abspath(next(rss)["link"])
    parsed = utils.parse_rss(link)
    stream = utils.gen_entries(parsed)
return stream, skip
```

`stream` is the `kwargs["stream"]` entry; `next` on an exhausted discovery
iterator raises `StopIteration`. -/
def parser {S P : Type} (env : FeedEnv S P) (objconf : SiteConf) (skip : Bool)
    (stream : S) : Except PyErr (S × Bool) :=
  if skip then .ok (stream, skip)
  else
    let url := env.get_abspath objconf.url
    match env.get_rss url with
    | [] => .error .stopIteration
    | first :: _ =>
      let link := env.get_abspath first
      let parsed := env.parse_rss link
      .ok (env.gen_entries parsed, skip)

/-- `fetchsitefeed.async_parser(_, objconf, skip, **kwargs)` (suspendable):

```
if skip:
    stream = kwargs["stream"]
else:
    url = utils.get_abspath(objconf.url)
    rss = yield autorss.asyncGetRSS(url)
    link = utils.get_abspath(next(rss)["link"])
    content = yield io.async_url_read(link)
    parsed = utils.parse_rss(content)
    stream = utils.gen_entries(parsed)
return_value((stream, skip))
``` -/
def asyncParser {S P : Type} (env : FeedEnv S P) (objconf : SiteConf) (skip : Bool)
    (stream : S) : Except PyErr (S × Bool) :=
  if skip then .ok (stream, skip)
  else
    let url := env.get_abspath objconf.url
    match env.get_rss url with
    | [] => .error .stopIteration
    | first :: _ =>
      let link := env.get_abspath first
      let content := env.async_url_read link
      let parsed := env.parse_rss content
      .ok (env.gen_entries parsed, skip)

/-! ## Helper lemmas -/

theorem dictLookup_mem {rates : RateTable} {k : String} {v : ℚ}
    (h : dictLookup rates k = some v) : (k, v) ∈ rates := by
  induction rates with
  | nil => simp [dictLookup] at h
  | cons p rest ih =>
    obtain ⟨k0, v0⟩ := p
    by_cases hk : k0 = k
    · simp [dictLookup, hk] at h
      simp [hk, h]
    · simp [dictLookup, hk] at h
      exact List.mem_cons_of_mem _ (ih h)

/-! ## Claim C3 -/

/-- Claim C3: for distinct currencies `f`, `t` with `t ≠ "USD"` and a table
holding both pivot keys (with the nonzero prices a rate table carries),
`calc_rate f t rates` returns `1 / (rates["USD/f"] * (1 / rates["USD/t"]))`;
in particular on `{"USD/USD": 1, "USD/EUR": 0.8234, "USD/GBP": 0.6448}`,
`calc_rate "EUR" "GBP"` is within `1e-6` of `1 / (0.8234 * (1/0.6448))`. -/
theorem calc_rate_cross_pivot :
    (∀ (f t : String) (rates : RateTable) (vf vt : ℚ),
        f ≠ t → t ≠ "USD" →
        dictLookup rates ("USD/" ++ f) = some vf →
        dictLookup rates ("USD/" ++ t) = some vt →
        vf ≠ 0 → vt ≠ 0 →
        calc_rate f t rates = .ok (1 / (vf * (1 / vt)))) ∧
    (∃ r : ℚ,
      calc_rate "EUR" "GBP"
          [("USD/USD", 1), ("USD/EUR", 8234/10000), ("USD/GBP", 6448/10000)] = .ok r ∧
      |r - 1 / ((8234/10000 : ℚ) * (1 / (6448/10000)))| < 1/1000000) := by
  constructor
  · intro f t rates vf vt hft ht hf htt hvf hvt
    have h1 : (1 : ℚ) / vt ≠ 0 := one_div_ne_zero hvt
    have h2 : vf * (1 / vt) ≠ 0 := mul_ne_zero hvf h1
    simp [calc_rate, getItem, hft, ht, hf, htt, pydiv, hvt, h2]
    exact hvf
  · refine ⟨3224/4117, ?_, ?_⟩
    · simp [calc_rate, dictLookup, getItem, pydiv]
      norm_num
    · norm_num

/-- Witness for C3 at the example table of the claim. -/
theorem calc_rate_cross_pivot_witness :
    calc_rate "EUR" "GBP"
        [("USD/USD", 1), ("USD/EUR", 8234/10000), ("USD/GBP", 6448/10000)]
      = .ok (1 / ((8234/10000 : ℚ) * (1 / (6448/10000)))) :=
  calc_rate_cross_pivot.1 "EUR" "GBP" _ (8234/10000) (6448/10000)
    (by decide) (by decide) (by simp [dictLookup]) (by simp [dictLookup])
    (by norm_num) (by norm_num)

/-! ## Claim C5 -/

/-- Claim C5: `calc_rate` raises a `KeyError` exactly when the cross-rate
branch is taken (`from_cur ≠ to_cur` and `to_cur ≠ "USD"`) and a needed pivot
key is absent; in the `to_cur = "USD"` branch a missing key instead yields
the substituted rate `1`, so the call returns `1.0`. -/
theorem calc_rate_lookup_error (f t : String) (rates : RateTable) :
    ((∃ k, calc_rate f t rates = .error (.keyError k)) ↔
      f ≠ t ∧ t ≠ "USD" ∧
        (dictLookup rates ("USD/" ++ f) = none ∨
          dictLookup rates ("USD/" ++ t) = none)) ∧
    (f ≠ t → t = "USD" → dictLookup rates ("USD/" ++ f) = none →
      calc_rate f t rates = .ok 1) := by
  constructor
  · constructor
    · rintro ⟨k, hk⟩
      by_cases hft : f = t
      · simp [calc_rate, hft, pydiv] at hk
      · by_cases ht : t = "USD"
        · subst ht
          rcases hl : dictLookup rates ("USD/" ++ f) with _ | r
          · simp [calc_rate, hft, hl, pydiv] at hk
          · by_cases hr : r = 0 <;>
              simp [calc_rate, hft, hl, pydiv, hr] at hk
        · refine ⟨hft, ht, ?_⟩
          rcases hlf : dictLookup rates ("USD/" ++ f) with _ | vf
          · exact Or.inl rfl
          · rcases hlt : dictLookup rates ("USD/" ++ t) with _ | vt
            · exact Or.inr rfl
            · exfalso
              by_cases hvt : vt = 0
              · simp [calc_rate, hft, ht, getItem, hlf, hlt, pydiv, hvt] at hk
              · simp [calc_rate, hft, ht, getItem, hlf, hlt, pydiv, hvt] at hk
                by_cases hvf : vf = 0 <;> simp [hvf] at hk
    · rintro ⟨hft, ht, hor⟩
      rcases hlf : dictLookup rates ("USD/" ++ f) with _ | vf
      · exact ⟨"USD/" ++ f, by simp [calc_rate, hft, ht, getItem, hlf]⟩
      · rcases hor with h | h
        · rw [hlf] at h; exact absurd h (by simp)
        · exact ⟨"USD/" ++ t, by simp [calc_rate, hft, ht, getItem, hlf, h]⟩
  · intro hft ht hl
    simp [calc_rate, hft, ht, hl, pydiv]

/-- Witness for C5: on the empty table, `calc_rate "EUR" "GBP"` raises a
`KeyError` while `calc_rate "EUR" "USD"` degrades to `1.0`. -/
theorem calc_rate_lookup_error_witness :
    (∃ k, calc_rate "EUR" "GBP" ([] : RateTable) = .error (.keyError k)) ∧
    calc_rate "EUR" "USD" ([] : RateTable) = .ok 1 :=
  ⟨(calc_rate_lookup_error "EUR" "GBP" []).1.mpr
      ⟨by decide, by decide, Or.inl rfl⟩,
    (calc_rate_lookup_error "EUR" "USD" []).2 (by decide) rfl rfl⟩

/-! ## Claim C9 -/

/-- Claim C9: on a table whose prices are all strictly positive, `calc_rate`
never raises `ZeroDivisionError` — every divisor handed to the divisions
(`1 / usd_to_default` and the final `1 / float(rate)`) is nonzero in each of
the three branches. -/
theorem calc_rate_no_zero_division (f t : String) (rates : RateTable)
    (hpos : ∀ p ∈ rates, 0 < p.2) :
    calc_rate f t rates ≠ .error .zeroDivisionError := by
  by_cases hft : f = t
  · simp [calc_rate, hft, pydiv]
  · by_cases ht : t = "USD"
    · subst ht
      rcases hl : dictLookup rates ("USD/" ++ f) with _ | r
      · simp [calc_rate, hft, hl, pydiv]
      · have hr : 0 < r := hpos _ (dictLookup_mem hl)
        simp [calc_rate, hft, hl, pydiv, ne_of_gt hr]
    · rcases hlf : dictLookup rates ("USD/" ++ f) with _ | vf
      · simp [calc_rate, hft, ht, getItem, hlf]
      · rcases hlt : dictLookup rates ("USD/" ++ t) with _ | vt
        · simp [calc_rate, hft, ht, getItem, hlf, hlt]
        · have hvf : 0 < vf := hpos _ (dictLookup_mem hlf)
          have hvt : 0 < vt := hpos _ (dictLookup_mem hlt)
          have hrate : 0 < vf * (1 / vt) := mul_pos hvf (by positivity)
          simp [calc_rate, hft, ht, getItem, hlf, hlt, pydiv,
            ne_of_gt hvt, ne_of_gt hrate]
          exact ne_of_gt hvf

/-- Witness for C9 on the bundled `FIELDS` sample table. -/
theorem calc_rate_no_zero_division_witness :
    calc_rate "EUR" "GBP"
        [("USD/USD", 1), ("USD/EUR", 8234/10000), ("USD/GBP", 6448/10000),
          ("USD/INR", 636810/10000), ("USD/PLN", 376/100), ("USD/SGD", 134/100)]
      ≠ .error .zeroDivisionError :=
  calc_rate_no_zero_division "EUR" "GBP" _ (by
    intro p hp
    simp only [List.mem_cons, List.not_mem_nil, or_false] at hp
    rcases hp with h | h | h | h | h | h <;> subst h <;> norm_num)

/-! ## Claim C7 -/

theorem calc_rate_eq_ok (f : String) (rates : RateTable) (a : ℚ)
    (ha : calc_rate f f rates = .ok a) : a = 1 := by
  simp [calc_rate, pydiv] at ha
  exact ha.symm

theorem calc_rate_toUSD_ok (f : String) (rates : RateTable) (a : ℚ)
    (hf : f ≠ "USD") (ha : calc_rate f "USD" rates = .ok a) :
    (dictLookup rates ("USD/" ++ f) = none ∧ a = 1) ∨
    (∃ v, dictLookup rates ("USD/" ++ f) = some v ∧ v ≠ 0 ∧ a = 1 / v) := by
  rcases hl : dictLookup rates ("USD/" ++ f) with _ | v
  · left
    simp [calc_rate, hf, hl, pydiv] at ha
    exact ⟨rfl, ha.symm⟩
  · right
    by_cases hv : v = 0
    · simp [calc_rate, hf, hl, pydiv, hv] at ha
    · simp [calc_rate, hf, hl, pydiv, hv] at ha
      exact ⟨v, rfl, hv, by rw [← ha, one_div]⟩

theorem calc_rate_cross_ok (f t : String) (rates : RateTable) (a : ℚ)
    (hft : f ≠ t) (ht : t ≠ "USD") (ha : calc_rate f t rates = .ok a) :
    ∃ vf vt, dictLookup rates ("USD/" ++ f) = some vf ∧
      dictLookup rates ("USD/" ++ t) = some vt ∧ vf ≠ 0 ∧ vt ≠ 0 ∧
      a = 1 / (vf * (1 / vt)) := by
  rcases hlf : dictLookup rates ("USD/" ++ f) with _ | vf
  · simp [calc_rate, hft, ht, getItem, hlf] at ha
  · rcases hlt : dictLookup rates ("USD/" ++ t) with _ | vt
    · simp [calc_rate, hft, ht, getItem, hlf, hlt] at ha
    · by_cases hvt : vt = 0
      · simp [calc_rate, hft, ht, getItem, hlf, hlt, pydiv, hvt] at ha
      · by_cases hvf : vf = 0
        · simp [calc_rate, hft, ht, getItem, hlf, hlt, pydiv, hvt, hvf] at ha
        · refine ⟨vf, vt, rfl, rfl, hvf, hvt, ?_⟩
          simp [calc_rate, hft, ht, getItem, hlf, hlt, pydiv, hvt, hvf] at ha
          rw [← ha]
          field_simp

/-- Counterexample to C7 as stated: in the table
`{"USD/USD": 2, "USD/EUR": 1/2}` every needed pivot key is present yet
`calc_rate "EUR" "USD" = 2` while `1 / calc_rate "USD" "EUR" = 4`; the
identity needs the rate-table invariant `"USD/USD" = 1`. -/
theorem calc_rate_inverse_cex :
    dictLookup [("USD/USD", 2), ("USD/EUR", 1/2)] ("USD/" ++ "EUR") = some (1/2) ∧
    dictLookup [("USD/USD", 2), ("USD/EUR", 1/2)] ("USD/" ++ "USD") = some 2 ∧
    calc_rate "EUR" "USD" [("USD/USD", 2), ("USD/EUR", 1/2)] = .ok 2 ∧
    calc_rate "USD" "EUR" [("USD/USD", 2), ("USD/EUR", 1/2)] = .ok (1/4) ∧
    (2 : ℚ) ≠ 1 / (1/4) := by
  refine ⟨by simp [dictLookup], by simp [dictLookup], ?_, ?_, by norm_num⟩
  · simp [calc_rate, dictLookup, getItem, pydiv]
  · simp [calc_rate, dictLookup, getItem, pydiv]
    norm_num

/-- Claim C7 (amended): for a table satisfying the rate-table invariant that
any `"USD/USD"` entry equals `1`, whenever both directions compute through
the pivot (`calc_rate` returns a value both ways), the results are mutual
inverses: `calc_rate f t rates = 1 / calc_rate t f rates`. -/
theorem calc_rate_inverse_consistent (f t : String) (rates : RateTable) (a b : ℚ)
    (hUSD : ∀ v, dictLookup rates "USD/USD" = some v → v = 1)
    (ha : calc_rate f t rates = .ok a) (hb : calc_rate t f rates = .ok b) :
    a = 1 / b := by
  by_cases hft : f = t
  · subst hft
    rw [calc_rate_eq_ok f rates a ha, calc_rate_eq_ok f rates b hb]
    norm_num
  · by_cases ht : t = "USD"
    · subst ht
      obtain ⟨u, w, hu, hw, hu0, hw0, hbv⟩ :=
        calc_rate_cross_ok "USD" f rates b (Ne.symm hft) hft hb
      have hu1 : u = 1 := hUSD u (by simpa using hu)
      rcases calc_rate_toUSD_ok f rates a hft ha with ⟨hnone, _⟩ | ⟨v, hv, hv0, hav⟩
      · rw [hw] at hnone; exact absurd hnone (by simp)
      · rw [hw] at hv
        obtain rfl : w = v := by injection hv
        subst hav hbv hu1
        field_simp
    · by_cases hf : f = "USD"
      · subst hf
        obtain ⟨u, w, hu, hw, hu0, hw0, hav⟩ :=
          calc_rate_cross_ok "USD" t rates a hft ht ha
        have hu1 : u = 1 := hUSD u (by simpa using hu)
        rcases calc_rate_toUSD_ok t rates b (Ne.symm hft) hb with
          ⟨hnone, _⟩ | ⟨v, hv, hv0, hbv⟩
        · rw [hw] at hnone; exact absurd hnone (by simp)
        · rw [hw] at hv
          obtain rfl : w = v := by injection hv
          subst hav hbv hu1
          field_simp
      · obtain ⟨vf, vt, hvf, hvt, hvf0, hvt0, hav⟩ :=
          calc_rate_cross_ok f t rates a hft ht ha
        obtain ⟨vt2, vf2, hvt2, hvf2, _, _, hbv⟩ :=
          calc_rate_cross_ok t f rates b (Ne.symm hft) hf hb
        rw [hvf] at hvf2
        rw [hvt] at hvt2
        obtain rfl : vt = vt2 := by injection hvt2
        obtain rfl : vf = vf2 := by injection hvf2
        subst hav hbv
        field_simp

/-- Witness for the amended C7 on the sample table. -/
theorem calc_rate_inverse_consistent_witness :
    (3224/4117 : ℚ) = 1 / (4117/3224) :=
  calc_rate_inverse_consistent "EUR" "GBP"
    [("USD/USD", 1), ("USD/EUR", 8234/10000), ("USD/GBP", 6448/10000)]
    (3224/4117) (4117/3224)
    (by intro v hv; simp [dictLookup] at hv; exact hv.symm)
    (by simp [calc_rate, dictLookup, getItem, pydiv]; norm_num)
    (by simp [calc_rate, dictLookup, getItem, pydiv]; norm_num)

/-! ## Claim C8 -/

/-- Claim C8: when the resolved per-item word is falsy (`None`, `""`, `0`),
`parse_result` substitutes `conf.default`: a pass-through pair yields the
default itself and a non-pass pair computes the rate from the default as the
base currency, never from the falsy word. -/
theorem parse_result_falsy_default (conf : Conf) (word : PyVal) (_pass : Bool)
    (rates : RateTable) (h : falsy word = true) :
    parse_result conf word _pass rates =
      if _pass then .ok conf.default
      else
        match calc_rate (pyFormat conf.default) conf.quote rates with
        | .error e => .error e
        | .ok r => .ok (.num r) := by
  simp [parse_result, pyOr, h]

/-- Witness for C8: the empty-string word is replaced by the default both in
a pass-through pair and in a computed pair. -/
theorem parse_result_falsy_default_witness :
    parse_result ⟨"USD", .str "EUR", none⟩ (.str "") true [] = .ok (.str "EUR") ∧
    parse_result ⟨"USD", .str "EUR", none⟩ (.str "") false [] = .ok (.num 1) := by
  constructor
  · rw [parse_result_falsy_default ⟨"USD", .str "EUR", none⟩ (.str "") true [] (by decide)]
    simp
  · rw [parse_result_falsy_default ⟨"USD", .str "EUR", none⟩ (.str "") false [] (by decide)]
    simp [pyFormat, calc_rate, dictLookup, pydiv]

/-! ## Claim C10 -/

/-- Claim C10: with the skip flag set, both the blocking and the suspendable
site-feed stage return exactly the passed-in `kwargs["stream"]` with the
unchanged skip flag, and do so independently of every external collaborator
and of the configured URL — no URL resolution, feed discovery, fetching or
parsing takes place. -/
theorem fetchsitefeed_skip_frame :
    ∀ (S P : Type) (env env2 : FeedEnv S P) (objconf objconf2 : SiteConf) (stream : S),
      parser env objconf true stream = .ok (stream, true) ∧
      asyncParser env objconf true stream = .ok (stream, true) ∧
      parser env objconf true stream = parser env2 objconf2 true stream ∧
      asyncParser env objconf true stream = asyncParser env2 objconf2 true stream := by
  intro S P env env2 objconf objconf2 stream
  exact ⟨rfl, rfl, rfl, rfl⟩

/-! ## Claim C6 -/

/-- Claim C6: for the memoized rate fetcher with the 12-hour TTL, the first
call (empty cache) invokes the underlying fetch and caches the value; a
second call within the validity window returns the cached value with no
underlying fetch and leaves the cache unchanged; a call after the window has
expired invokes the underlying fetch again. -/
theorem memoize_half_day_single_fetch {α : Type} (v : α) (t0 t1 t2 : ℕ)
    (fetchFn : Except PyErr α) (hok : fetchFn = .ok v)
    (h1 : t1 - t0 < HALF_DAY) (h2 : HALF_DAY ≤ t2 - t0) :
    cacheGet HALF_DAY t0 fetchFn ⟨none⟩ = (.ok v, ⟨some (v, t0)⟩, true) ∧
    cacheGet HALF_DAY t1 fetchFn ⟨some (v, t0)⟩ = (.ok v, ⟨some (v, t0)⟩, false) ∧
    (cacheGet HALF_DAY t2 fetchFn ⟨some (v, t0)⟩).2.2 = true := by
  subst hok
  refine ⟨rfl, ?_, ?_⟩
  · simp [cacheGet, h1]
  · simp [cacheGet, Nat.not_lt.mpr h2]

/-- Witness for C6 with calls at times 0, 1 and `HALF_DAY`. -/
theorem memoize_half_day_single_fetch_witness :
    cacheGet HALF_DAY 0 (Except.ok (0 : ℕ)) ⟨none⟩ = (.ok 0, ⟨some (0, 0)⟩, true) ∧
    cacheGet HALF_DAY 1 (Except.ok (0 : ℕ)) ⟨some (0, 0)⟩ = (.ok 0, ⟨some (0, 0)⟩, false) ∧
    (cacheGet HALF_DAY HALF_DAY (Except.ok (0 : ℕ)) ⟨some (0, 0)⟩).2.2 = true :=
  memoize_half_day_single_fetch 0 0 1 HALF_DAY (.ok 0) rfl
    (by norm_num [HALF_DAY]) (by norm_num [HALF_DAY])

/-! ## Claim C2 -/

/-- A fetch environment where the remote GET itself raises but the bundled
snapshot file is present and parses. -/
def fetchFailEnv : FetchEnv :=
  ⟨.error .connectionError, fun _ => .error .valueError, .ok (.obj [])⟩

/-- A fetch environment where the remote GET succeeds but its body is
unparseable, while the bundled snapshot file is present and parses. -/
def fetchBadBodyEnv : FetchEnv :=
  ⟨.ok "not json", fun _ => .error .valueError, .ok (.obj [])⟩

/-- Counterexample to C2 as stated: with the snapshot available, the blocking
`get_rate_data` propagates a GET failure instead of falling back, and the
suspendable `asyncGetRateData` propagates an unparseable-response failure
instead of falling back. -/
theorem rate_fetch_no_fallback_cex :
    get_rate_data fetchFailEnv = .error .connectionError ∧
    fetchFailEnv.snapshot = .ok (.obj []) ∧
    get_rate_data fetchFailEnv ≠ fetchFailEnv.snapshot ∧
    asyncGetRateData fetchBadBodyEnv = .error .valueError ∧
    fetchBadBodyEnv.snapshot = .ok (.obj []) ∧
    asyncGetRateData fetchBadBodyEnv ≠ fetchBadBodyEnv.snapshot := by
  refine ⟨rfl, rfl, ?_, rfl, rfl, ?_⟩ <;> simp [get_rate_data, asyncGetRateData, fetchFailEnv,
    fetchBadBodyEnv, get_offline_rate_data]

/-- Claim C2 (amended): only the suspendable fetcher falls back to the
bundled snapshot and only when the remote GET itself raises or times out;
the blocking fetcher propagates every GET failure, and on a successful GET
both strategies return whatever the response parser yields, a parse failure
included. -/
theorem rate_fetch_fallback (env : FetchEnv) :
    (∀ e, env.httpGet = .error e → asyncGetRateData env = env.snapshot) ∧
    (∀ e, env.httpGet = .error e → get_rate_data env = .error e) ∧
    (∀ body, env.httpGet = .ok body →
      asyncGetRateData env = env.parseBody body ∧
        get_rate_data env = env.parseBody body) := by
  refine ⟨fun e he => ?_, fun e he => ?_, fun body hb => ⟨?_, ?_⟩⟩ <;>
    simp [asyncGetRateData, get_rate_data, get_offline_rate_data, *]

/-- Witness for the amended C2 in the two concrete environments. -/
theorem rate_fetch_fallback_witness :
    asyncGetRateData fetchFailEnv = fetchFailEnv.snapshot ∧
    get_rate_data fetchFailEnv = .error .connectionError ∧
    get_rate_data fetchBadBodyEnv = fetchBadBodyEnv.parseBody "not json" :=
  ⟨(rate_fetch_fallback fetchFailEnv).1 .connectionError rfl,
    (rate_fetch_fallback fetchFailEnv).2.1 .connectionError rfl,
    ((rate_fetch_fallback fetchBadBodyEnv).2.2 "not json" rfl).2⟩

/-! ## Claim C4 -/

theorem buildTable_ok_mem {rs : List JSON} {acc tbl : RateTable} {r : JSON}
    (h : buildTable rs acc = .ok tbl) (hr : r ∈ rs) :
    ∃ v, parse_record r = .ok v := by
  induction rs generalizing acc with
  | nil => simp at hr
  | cons x rest ih =>
    rcases hp : parse_record x with e | v
    · rw [buildTable, hp] at h
      exact absurd h (by simp)
    · cases hr with
      | head => exact ⟨v, hp⟩
      | tail _ hr2 =>
        rw [buildTable, hp] at h
        exact ih h hr2

theorem parse_record_mkField (name : String) (price : ℚ) :
    parse_record (mkField name price) = .ok (name, price) := by
  simp [parse_record, mkField, getItemJ, jsonLookup, asStr, asNum]

theorem buildTable_map_mkField (entries : List (String × ℚ)) (acc : RateTable) :
    buildTable (entries.map fun nv => mkField nv.1 nv.2) acc
      = .ok (entries.foldl (fun t nv => dictInsert t nv.1 nv.2) acc) := by
  induction entries generalizing acc with
  | nil => simp [buildTable]
  | cons x rest ih =>
    rw [List.map_cons, buildTable, parse_record_mkField, List.foldl_cons]
    exact ih _

/-- A record missing the expected `price` field. -/
def badRecord : JSON :=
  .obj [("resource", .obj [("fields", .obj [("name", .str "USD/GBP")])])]

/-- A payload holding one well-formed record and one malformed record. -/
def badPayload : JSON := mkPayload [mkField "USD/EUR" (8234/10000), badRecord]

/-- Counterexample to C4 as stated: a payload with one malformed record does
not yield the table of the remaining well-formed records — the whole parse
aborts with the `KeyError` of the missing `price` field. -/
theorem parse_request_no_skip_cex :
    parse_request badPayload = .error (.keyError "price") ∧
    parse_request badPayload ≠ .ok [("USD/EUR", 8234/10000)] := by
  constructor
  · simp [parse_request, badPayload, mkPayload, badRecord, mkField, getItemJ,
      jsonLookup, asArr, buildTable, parse_record, asStr, asNum, dictInsert]
  · simp [parse_request, badPayload, mkPayload, badRecord, mkField, getItemJ,
      jsonLookup, asArr, buildTable, parse_record, asStr, asNum, dictInsert]

/-- Claim C4 (amended): `parse_request` flattens each well-formed
`list.resources[].resource.fields` record into one `BASE/QUOTE ↦ price`
entry of the returned table, but a malformed record is not skipped: any
record whose `resource`/`fields`/`name`/`price` structure fails to parse
makes the whole parse abort with that failure. -/
theorem parse_request_flatten :
    (∀ entries : List (String × ℚ),
        parse_request (mkPayload (entries.map fun nv => mkField nv.1 nv.2))
          = .ok (entries.foldl (fun t nv => dictInsert t nv.1 nv.2) [])) ∧
    (∀ (rs : List JSON) (r : JSON) (e : PyErr), r ∈ rs →
        parse_record r = .error e →
        ∀ tbl, parse_request (mkPayload rs) ≠ .ok tbl) := by
  constructor
  · intro entries
    rw [show ∀ l, parse_request (mkPayload l) = buildTable l [] from fun l => rfl]
    exact buildTable_map_mkField entries []
  · intro rs r e hr he tbl h
    rw [show parse_request (mkPayload rs) = buildTable rs [] from rfl] at h
    obtain ⟨v, hv⟩ := buildTable_ok_mem h hr
    rw [he] at hv
    exact absurd hv (by simp)

/-- Witness for the amended C4: the two sample records flatten in order, and
the malformed payload is rejected. -/
theorem parse_request_flatten_witness :
    parse_request (mkPayload
        [mkField "USD/USD" 1, mkField "USD/EUR" (8234/10000)])
      = .ok [("USD/USD", 1), ("USD/EUR", 8234/10000)] ∧
    parse_request badPayload ≠ .ok [] := by
  constructor
  · have h := parse_request_flatten.1 [("USD/USD", 1), ("USD/EUR", 8234/10000)]
    simpa [dictInsert] using h
  · exact parse_request_flatten.2 [mkField "USD/EUR" (8234/10000), badRecord]
      badRecord (.keyError "price") (by simp)
      (by simp [badRecord, parse_record, getItemJ, jsonLookup, asStr, asNum]) []

/-! ## Claim C1 -/

/-- A remote payload carrying the sample rate records. -/
def goodPayload : JSON :=
  mkPayload [mkField "USD/USD" 1, mkField "USD/EUR" (8234/10000),
    mkField "USD/GBP" (6448/10000)]

/-- A healthy stage environment: the GET succeeds, the body parses to
`goodPayload`, the snapshot is intact, and the dispatcher produced one
non-pass split pair with the word `"EUR"`. -/
def c1Env : StageEnv :=
  ⟨⟨.ok "body", fun _ => .ok goodPayload, .ok goodPayload⟩, [(.str "EUR", false)]⟩

/-- A configuration quoting GBP with default EUR and no `offline` key. -/
def c1Conf : Conf := ⟨"GBP", .str "EUR", none⟩

/-- Claim C1 fails on the code: in an online invocation the blocking
`pipe_exchangerate` emits the converted rate, but the suspendable
`asyncPipeExchangerate` never `yield`s the Deferred returned by
`asyncGetRateData()`, so `parse_request` subscripts an unresolved Deferred
and the stage fails with `TypeError` instead of producing the same
stream. -/
theorem pipe_exchangerate_async_divergence :
    pipe_exchangerate c1Env c1Conf = .ok [.num (3224/4117)] ∧
    asyncPipeExchangerate c1Env c1Conf = .error .typeError ∧
    pipe_exchangerate c1Env c1Conf ≠ asyncPipeExchangerate c1Env c1Conf := by
  refine ⟨?_, ?_, ?_⟩
  · simp [pipe_exchangerate, c1Env, c1Conf, confOffline, falsy, get_rate_data,
      parse_request, goodPayload, mkPayload, mkField, getItemJ, jsonLookup, asArr,
      buildTable, parse_record, asStr, asNum, dictInsert, starmapResults,
      parse_result, pyOr, pyFormat, calc_rate, dictLookup, getItem, pydiv]
    norm_num
  · rfl
  · intro h
    rw [show asyncPipeExchangerate c1Env c1Conf = .error .typeError from rfl] at h
    revert h
    simp [pipe_exchangerate, c1Env, c1Conf, confOffline, falsy, get_rate_data,
      parse_request, goodPayload, mkPayload, mkField, getItemJ, jsonLookup, asArr,
      buildTable, parse_record, asStr, asNum, dictInsert, starmapResults,
      parse_result, pyOr, pyFormat, calc_rate, dictLookup, getItem, pydiv]
